import Mathlib

/-!
Shallow embedding of the RAGFlow retrieval client
(`src/services/ragflow.py`) and its tool wrapper
(`src/agent/tools/ragflow_retriever.py`).

JSON values decoded from an HTTP body are modelled by the inductive
`Json`; Python attribute and subscript errors raised while traversing
such a value are modelled in the `Except PyErr` monad; the two
`except` clauses of `RAGFlowService.retrieve` are the total handler
`handleExceptions`.  The HTTP backend is an explicit function from the
request the client builds to an outcome, so that theorems can
quantify over every backend behaviour; the list of requests issued is
returned alongside the result to express "performs no network call".
-/

/-- A JSON value as decoded by Python: `None`, booleans, numbers
(integers suffice for the behaviours specified), strings, lists and
dicts (association lists of string keys). -/
inductive Json where
  | null : Json
  | bool (b : Bool) : Json
  | num (n : Int) : Json
  | str (s : String) : Json
  | arr (xs : List Json) : Json
  | obj (fields : List (String × Json)) : Json

/-- Whether a `Json` value is a string node. -/
def Json.isStr : Json → Bool
  | .str _ => true
  | _ => false

/-- Python truthiness of a decoded JSON value (`if not choices:`):
`None`, `False`, `0`, `""`, `[]` and the empty dict are falsy. -/
def pyFalsy : Json → Bool
  | .null => true
  | .bool b => !b
  | .num n => n == 0
  | .str s => s.isEmpty
  | .arr xs => xs.isEmpty
  | .obj fields => fields.isEmpty

/-- A Python exception escaping the `try` block of `retrieve`:
either an `httpx.HTTPStatusError` from `raise_for_status` (carrying
the status code and `str(e)`), or any other exception (carrying
`str(e)`). -/
inductive PyErr where
  | httpStatus (status : Nat) (msg : String) : PyErr
  | other (msg : String) : PyErr
deriving Repr, DecidableEq

/-- Python `value.get(key, default)`: looks the key up when the value
is a dict, and raises `AttributeError` on every other type. -/
def pyGet (j : Json) (key : String) (dflt : Json) : Except PyErr Json :=
  match j with
  | .obj fields =>
    match fields.lookup key with
    | some v => .ok v
    | none => .ok dflt
  | _ => .error (.other ("AttributeError: object has no attribute get: " ++ key))

/-- Python `value[0]`: first element of a list or string, `KeyError`
on a dict (JSON keys are strings, never the integer 0), `TypeError`
otherwise.  The list-index branch is only reached on non-empty lists
because `retrieve` guards with a truthiness check first. -/
def pyIndex0 (j : Json) : Except PyErr Json :=
  match j with
  | .arr (x :: _) => .ok x
  | .arr [] => .error (.other "IndexError: list index out of range")
  | .str s =>
    match s.toList with
    | c :: _ => .ok (.str (String.mk [c]))
    | [] => .error (.other "IndexError: string index out of range")
  | .obj _ => .error (.other "KeyError: 0")
  | _ => .error (.other "TypeError: object is not subscriptable")

/-- The outcome of the single `client.post` call: either an HTTP
response was received (whose body then either decodes to a `Json`
value or makes `response.json()` raise, carrying the message), or the
request itself raised (timeout, connection refused, DNS failure, any
network error), carrying `str(e)`. -/
inductive HTTPOutcome where
  | response (status : Nat) (body : Except String Json) : HTTPOutcome
  | transportError (msg : String) : HTTPOutcome

/-- The request `retrieve` builds: URL, headers and JSON payload. -/
structure Request where
  url : String
  headers : List (String × String)
  payload : Json

/-- The process-wide settings the service is constructed from. -/
structure Settings where
  RAGFLOW_BASE_URL : String
  RAGFLOW_API_KEY : String
  RAGFLOW_CHAT_ID : String

/-- Python `s.rstrip "/"`: drop every trailing slash. -/
def rstripSlashes (s : String) : String :=
  String.mk ((s.toList.reverse.dropWhile (fun c => c = '/')).reverse)

/-- The state of a constructed `RAGFlowService` instance: the three
configuration strings and the precomputed headers. -/
structure RAGFlowService where
  base_url : String
  api_key : String
  chat_id : String
  headers : List (String × String)
deriving Repr, DecidableEq

/-- `RAGFlowService.__init__`: reads the settings, strips trailing
slashes from the base URL and precomputes the two headers. -/
def RAGFlowService.init (settings : Settings) : RAGFlowService :=
  { base_url := rstripSlashes settings.RAGFLOW_BASE_URL
    api_key := settings.RAGFLOW_API_KEY
    chat_id := settings.RAGFLOW_CHAT_ID
    headers := [("Authorization", "Bearer " ++ settings.RAGFLOW_API_KEY),
                ("Content-Type", "application/json")] }

/-- The URL and request `retrieve` posts to (url, headers and the
OpenAI-chat-completions-shaped payload with the literal model name,
one user message holding the query, and streaming off). -/
def mkRequest (svc : RAGFlowService) (query : String) : Request :=
  { url := svc.base_url ++ "/chats_openai/" ++ svc.chat_id ++ "/chat/completions"
    headers := svc.headers
    payload := .obj [("model", .str "ragflow"),
                     ("messages", .arr [.obj [("role", .str "user"),
                                              ("content", .str query)]]),
                     ("stream", .bool false)] }

/-- The message `str(e)` of the `httpx.HTTPStatusError` raised by
`raise_for_status` on a non-2xx status (a library-formatted string
mentioning the status code and the url). -/
def httpStatusErrorStr (status : Nat) (url : String) : String :=
  "HTTP status error " ++ toString status ++ " for url " ++ url

/-- The body of the `try` block, given the outcome of the post:
`raise_for_status` raises on any non-2xx status, `response.json()`
raises when the body is malformed, then `choices` is fetched with
default `[]`, its truthiness checked, and `choices[0].message.content`
extracted with Python `get`/subscript semantics. -/
def tryBody (outcome : HTTPOutcome) (url : String) : Except PyErr Json :=
  match outcome with
  | .transportError msg => .error (.other msg)
  | .response status body =>
    if 200 ≤ status ∧ status < 300 then
      match body with
      | .error msg => .error (.other msg)
      | .ok data =>
        match pyGet data "choices" (.arr []) with
        | .error e => .error e
        | .ok choices =>
          if pyFalsy choices then
            .ok (.str "No response from RAGFlow.")
          else
            match pyIndex0 choices with
            | .error e => .error e
            | .ok c0 =>
              match pyGet c0 "message" (.obj []) with
              | .error e => .error e
              | .ok message => pyGet message "content" (.str "")
    else
      .error (.httpStatus status (httpStatusErrorStr status url))

/-- The two `except` clauses: an `HTTPStatusError` becomes the
"Error communicating" string, any other exception becomes the
"unexpected error" string; a normal result passes through. -/
def handleExceptions (r : Except PyErr Json) : Except PyErr Json :=
  match r with
  | .ok j => .ok j
  | .error (.httpStatus _ msg) =>
    .ok (.str ("Error communicating with RAGFlow: " ++ msg))
  | .error (.other msg) =>
    .ok (.str ("An unexpected error occurred while querying RAGFlow: " ++ msg))

/-- `RAGFlowService.retrieve`: guard on empty credentials, else build
the request, post it once and run the try/except body.  The second
component records every request issued to the backend, so that the
guard path can be seen to make no network call. -/
def RAGFlowService.retrieve (svc : RAGFlowService)
    (backend : Request → HTTPOutcome) (query : String) :
    Except PyErr Json × List Request :=
  if svc.api_key = "" ∨ svc.chat_id = "" then
    (.ok (.str "RAGFlow is not configured. Please provide API key and Chat ID."), [])
  else
    let req := mkRequest svc query
    (handleExceptions (tryBody (backend req) req.url), [req])

/-- `retrieve` as a method on the service state: the body assigns to
no field of `self`, so the post-state is the unchanged pre-state. -/
def RAGFlowService.retrieveCall (svc : RAGFlowService)
    (backend : Request → HTTPOutcome) (query : String) :
    RAGFlowService × (Except PyErr Json × List Request) :=
  (svc, svc.retrieve backend query)

/-- The tool wrapper `query_knowledge_base`
(`src/agent/tools/ragflow_retriever.py`): logs the inbound query and
returns `ragflow_service.retrieve(query)` unchanged. -/
def query_knowledge_base (svc : RAGFlowService)
    (backend : Request → HTTPOutcome) (query : String) :
    Except PyErr Json × List Request :=
  svc.retrieve backend query

/-! ## Theorems -/

/-- Every result of the two `except` clauses is a normal return:
`handleExceptions` never leaves an exception unhandled. -/
theorem handleExceptions_isOk (r : Except PyErr Json) :
    ∃ j, handleExceptions r = .ok j := by
  match r with
  | .ok j => exact ⟨j, rfl⟩
  | .error (.httpStatus s m) => exact ⟨_, rfl⟩
  | .error (.other m) => exact ⟨_, rfl⟩

/-- Claim C1: for every query, if the configured API key or the chat
identifier is empty, `retrieve` returns exactly the fixed
not-configured string and issues no request to the backend. -/
theorem retrieve_unconfigured (svc : RAGFlowService)
    (backend : Request → HTTPOutcome) (query : String)
    (h : svc.api_key = "" ∨ svc.chat_id = "") :
    svc.retrieve backend query =
      (.ok (.str "RAGFlow is not configured. Please provide API key and Chat ID."), []) := by
  unfold RAGFlowService.retrieve
  rw [if_pos h]

/-- Witness for C1 at a concrete misconfigured service. -/
theorem retrieve_unconfigured_witness :
    (RAGFlowService.init ⟨"http://x", "", "chat"⟩).retrieve
        (fun _ => .transportError "boom") "any query" =
      (.ok (.str "RAGFlow is not configured. Please provide API key and Chat ID."), []) :=
  retrieve_unconfigured _ _ _ (Or.inl rfl)

/-- Claim C2: for every configuration, every backend behaviour and
every query, `retrieve` resolves to a normal string-shaped result:
no exception ever propagates to the caller. -/
theorem retrieve_never_raises (svc : RAGFlowService)
    (backend : Request → HTTPOutcome) (query : String) :
    ∃ j, (svc.retrieve backend query).1 = .ok j := by
  unfold RAGFlowService.retrieve
  by_cases h : svc.api_key = "" ∨ svc.chat_id = ""
  · rw [if_pos h]
    exact ⟨_, rfl⟩
  · rw [if_neg h]
    exact handleExceptions_isOk _

/-- Claim C3: on a 2xx response whose body has a non-empty `choices`
list whose first element carries `message.content` equal to a string
`c`, `retrieve` returns exactly `c`, unmodified. -/
theorem retrieve_content_passthrough (svc : RAGFlowService)
    (backend : Request → HTTPOutcome) (query : String) (status : Nat)
    (fields f0 mf : List (String × Json)) (rest : List Json) (c : String)
    (hk : ¬(svc.api_key = "" ∨ svc.chat_id = ""))
    (h2a : 200 ≤ status) (h2b : status < 300)
    (hb : backend (mkRequest svc query) = .response status (.ok (.obj fields)))
    (hch : fields.lookup "choices" = some (.arr (.obj f0 :: rest)))
    (hm : f0.lookup "message" = some (.obj mf))
    (hc : mf.lookup "content" = some (.str c)) :
    (svc.retrieve backend query).1 = .ok (.str c) := by
  unfold RAGFlowService.retrieve
  rw [if_neg hk]
  simp [hb, tryBody, h2a, h2b, pyGet, hch, pyFalsy, pyIndex0, hm, hc, handleExceptions]

/-- Witness for C3: the mocked Paris body yields exactly Paris. -/
theorem retrieve_content_passthrough_witness :
    ((RAGFlowService.init ⟨"http://x", "key", "chat"⟩).retrieve
        (fun _ => .response 200 (.ok (.obj [("choices",
          .arr [.obj [("message", .obj [("content", .str "Paris")])]])])))
        "What is the capital of France?").1 = .ok (.str "Paris") :=
  retrieve_content_passthrough _ _ _ 200 _ _ _ _ _
    (by decide) (by decide) (by decide) rfl rfl rfl rfl

/-- Claim C4: on a 2xx response whose body is an object in which the
`choices` key is absent or holds the empty list, `retrieve` returns
exactly the fixed no-response string. -/
theorem retrieve_no_choices (svc : RAGFlowService)
    (backend : Request → HTTPOutcome) (query : String) (status : Nat)
    (fields : List (String × Json))
    (hk : ¬(svc.api_key = "" ∨ svc.chat_id = ""))
    (h2a : 200 ≤ status) (h2b : status < 300)
    (hb : backend (mkRequest svc query) = .response status (.ok (.obj fields)))
    (hch : fields.lookup "choices" = none ∨ fields.lookup "choices" = some (.arr [])) :
    (svc.retrieve backend query).1 = .ok (.str "No response from RAGFlow.") := by
  unfold RAGFlowService.retrieve
  rw [if_neg hk]
  rcases hch with hch | hch <;>
    simp [hb, tryBody, h2a, h2b, pyGet, hch, pyFalsy, handleExceptions]

/-- Witness for C4: a 200 body with an empty choices list. -/
theorem retrieve_no_choices_witness :
    ((RAGFlowService.init ⟨"http://x", "key", "chat"⟩).retrieve
        (fun _ => .response 200 (.ok (.obj [("choices", .arr [])]))) "q").1 =
      .ok (.str "No response from RAGFlow.") :=
  retrieve_no_choices _ _ _ 200 _
    (by decide) (by decide) (by decide) rfl (Or.inr rfl)

/-- Claim C5: on any non-2xx status the result is the status-error
string: the prefix followed by the stringified failure, with no
exception reaching the caller. -/
theorem retrieve_status_error (svc : RAGFlowService)
    (backend : Request → HTTPOutcome) (query : String) (status : Nat)
    (body : Except String Json)
    (hk : ¬(svc.api_key = "" ∨ svc.chat_id = ""))
    (hs : status < 200 ∨ 300 ≤ status)
    (hb : backend (mkRequest svc query) = .response status body) :
    ∃ details, (svc.retrieve backend query).1 =
      .ok (.str ("Error communicating with RAGFlow: " ++ details)) := by
  refine ⟨httpStatusErrorStr status (mkRequest svc query).url, ?_⟩
  have hcond : ¬(200 ≤ status ∧ status < 300) := by omega
  unfold RAGFlowService.retrieve
  rw [if_neg hk]
  simp [hb, tryBody, hcond, handleExceptions]

/-- Witness for C5 at a mocked 401 response. -/
theorem retrieve_status_error_witness :
    ∃ details, ((RAGFlowService.init ⟨"http://x", "key", "chat"⟩).retrieve
        (fun _ => .response 401 (.ok (.obj []))) "q").1 =
      .ok (.str ("Error communicating with RAGFlow: " ++ details)) :=
  retrieve_status_error _ _ _ 401 _ (by decide) (by decide) rfl

/-- Claim C6: on a transport failure (timeout, connection refused,
DNS failure, any network error) or a 2xx response whose body fails to
decode as JSON, the result is the unexpected-error string: the prefix
followed by the stringified failure, with no exception reaching the
caller. -/
theorem retrieve_unexpected_error (svc : RAGFlowService)
    (backend : Request → HTTPOutcome) (query : String) (msg : String)
    (hk : ¬(svc.api_key = "" ∨ svc.chat_id = ""))
    (h : backend (mkRequest svc query) = .transportError msg ∨
         ∃ status, 200 ≤ status ∧ status < 300 ∧
           backend (mkRequest svc query) = .response status (.error msg)) :
    ∃ details, (svc.retrieve backend query).1 =
      .ok (.str ("An unexpected error occurred while querying RAGFlow: " ++ details)) := by
  refine ⟨msg, ?_⟩
  unfold RAGFlowService.retrieve
  rw [if_neg hk]
  rcases h with h | ⟨status, h1, h2, h3⟩
  · simp [h, tryBody, handleExceptions]
  · simp [h3, tryBody, h1, h2, handleExceptions]

/-- Witness for C6 at a mocked timeout. -/
theorem retrieve_unexpected_error_witness :
    ∃ details, ((RAGFlowService.init ⟨"http://x", "key", "chat"⟩).retrieve
        (fun _ => .transportError "timed out") "q").1 =
      .ok (.str ("An unexpected error occurred while querying RAGFlow: " ++ details)) :=
  retrieve_unexpected_error _ _ _ "timed out" (by decide) (Or.inl rfl)

/-- Claim C7: on a 2xx response with a non-empty `choices` list whose
first element is an object, a missing `message` field, or a `message`
object missing its `content` field, defaults to the empty string
rather than failing. -/
theorem retrieve_missing_fields_default (svc : RAGFlowService)
    (backend : Request → HTTPOutcome) (query : String) (status : Nat)
    (fields f0 : List (String × Json)) (rest : List Json)
    (hk : ¬(svc.api_key = "" ∨ svc.chat_id = ""))
    (h2a : 200 ≤ status) (h2b : status < 300)
    (hb : backend (mkRequest svc query) = .response status (.ok (.obj fields)))
    (hch : fields.lookup "choices" = some (.arr (.obj f0 :: rest)))
    (hmf : f0.lookup "message" = none ∨
           ∃ mf, f0.lookup "message" = some (.obj mf) ∧ mf.lookup "content" = none) :
    (svc.retrieve backend query).1 = .ok (.str "") := by
  unfold RAGFlowService.retrieve
  rw [if_neg hk]
  rcases hmf with hmf | ⟨mf, hmf, hcf⟩
  · simp [hb, tryBody, h2a, h2b, pyGet, hch, pyFalsy, pyIndex0, hmf, handleExceptions]
  · simp [hb, tryBody, h2a, h2b, pyGet, hch, pyFalsy, pyIndex0, hmf, hcf, handleExceptions]

/-- Witness for C7: a choice with no message field yields "". -/
theorem retrieve_missing_fields_default_witness :
    ((RAGFlowService.init ⟨"http://x", "key", "chat"⟩).retrieve
        (fun _ => .response 200 (.ok (.obj [("choices", .arr [.obj []])]))) "q").1 =
      .ok (.str "") :=
  retrieve_missing_fields_default _ _ _ 200 _ _ _
    (by decide) (by decide) (by decide) rfl rfl (Or.inl rfl)

/-- Claim C8: the tool wrapper `query_knowledge_base` returns, for
every configuration, backend and query, a result identical to
`RAGFlowService.retrieve` on the same query: a pure pass-through. -/
theorem query_knowledge_base_passthrough (svc : RAGFlowService)
    (backend : Request → HTTPOutcome) (query : String) :
    query_knowledge_base svc backend query = svc.retrieve backend query := rfl

/-- Claim C9: calling `retrieve` twice with the same query and the
same deterministic backend yields identical results, and the service
state after a call is the state before it: no hidden state
accumulates between calls. -/
theorem retrieve_idempotent (svc : RAGFlowService)
    (backend : Request → HTTPOutcome) (query : String) :
    ((svc.retrieveCall backend query).fst.retrieveCall backend query).snd.fst =
      (svc.retrieveCall backend query).snd.fst ∧
    (svc.retrieveCall backend query).fst = svc :=
  ⟨rfl, rfl⟩

/-- Claim C10: the extracted `choices[0].message.content` value is
returned without any type check or coercion: a 2xx body carrying
`"content": null` makes `retrieve` return the JSON null value, which
is not a string node. -/
theorem retrieve_nonstring_content :
    ((RAGFlowService.init ⟨"http://x", "key", "chat"⟩).retrieve
        (fun _ => .response 200 (.ok (.obj [("choices",
          .arr [.obj [("message", .obj [("content", Json.null)])]])]))) "q").1 =
        .ok Json.null ∧
      Json.isStr Json.null = false :=
  ⟨rfl, rfl⟩
